import Mathlib

deriving instance DecidableEq for Except

/-!
Shallow embedding of src/Lambda/lf1.py, the Lex fulfillment handler of the
dinner-chatbot repository, together with theorems settling the frozen claims
about its validation rules, dialog-state resolution, routing and entry point.

Python dicts with a fixed key set become structures; a dict entry that may be
absent becomes an Option field; slot and session-attribute mappings become
functions from key strings; a Python function that can raise an uncaught
exception returns Except PyErr; machine-independent Python ints become Int.
Library calls (dateutil.parser.parse, datetime.strptime, int, str.split,
str.lower) are modelled by executable Lean functions documented at their
definitions.
-/

namespace Lf1

/-- Exceptions the embedded handlers can raise: the uncaught ValueError from
strptime or from tuple unpacking, the KeyError from reading an absent dict
entry, the NameError from reading an undefined variable, and the generic
Exception raised by dispatch for an unsupported intent. -/
inductive PyErr where
  | valueError
  | keyError (key : String)
  | nameError (name : String)
  | exception (msg : String)
deriving DecidableEq

/-- A Lex message dict, always built as a contentType/content pair. -/
structure PyMessage where
  contentType : String
  content : String
deriving DecidableEq

/-- The dict built by build_validation_result (lf1.py lines 77-88).
message = none models the variant in which the message key is absent from the
dict altogether; violatedSlot = none models a Python None value. -/
structure ValidationResult where
  isValid : Bool
  violatedSlot : Option String
  message : Option PyMessage
deriving DecidableEq

/-- lf1.py lines 77-88: build_validation_result. When message_content is None
the returned dict has no message entry at all. -/
def build_validation_result (is_valid : Bool) (violated_slot : Option String)
    (message_content : Option String) : ValidationResult :=
  match message_content with
  | none => { isValid := is_valid, violatedSlot := violated_slot, message := none }
  | some c => { isValid := is_valid, violatedSlot := violated_slot,
                message := some { contentType := "PlainText", content := c } }

/-- A session-attribute value: the handlers store strings and one derived
integer (the Price attribute). -/
inductive AttrVal where
  | str (s : String)
  | int (n : Int)
deriving DecidableEq

/-- The slot mapping of a request: every declared slot key maps to its value;
none models a Python None value (slot not yet collected). -/
abbrev Slots := String → Option String

/-- The session-attribute mapping. -/
abbrev SessAttrs := String → Option AttrVal

/-- The empty dict substituted for sessionAttributes when it is None. -/
def emptySess : SessAttrs := fun _ => none

/-- The dialogAction part of a response: exactly the three shapes built by
elicit_slot, close and delegate in lf1.py lines 31-64. -/
inductive DialogAction where
  | elicitSlot (intentName : String) (slots : Slots) (slotToElicit : Option String)
      (message : Option PyMessage)
  | close (fulfillmentState : String) (message : PyMessage)
  | delegate (slots : Slots)

/-- A response returned to the host platform. -/
structure Response where
  sessionAttributes : Option SessAttrs
  dialogAction : DialogAction

/-- lf1.py lines 31-41: elicit_slot. -/
def elicit_slot (session_attributes : Option SessAttrs) (intent_name : String)
    (slots : Slots) (slot_to_elicit : Option String) (message : Option PyMessage) : Response :=
  { sessionAttributes := session_attributes,
    dialogAction := .elicitSlot intent_name slots slot_to_elicit message }

/-- lf1.py lines 44-54: close. -/
def close (session_attributes : Option SessAttrs) (fulfillment_state : String)
    (message : PyMessage) : Response :=
  { sessionAttributes := session_attributes,
    dialogAction := .close fulfillment_state message }

/-- lf1.py lines 57-64: delegate. -/
def delegate (session_attributes : Option SessAttrs) (slots : Slots) : Response :=
  { sessionAttributes := session_attributes, dialogAction := .delegate slots }

/-- Numeric value of an ASCII digit character. -/
def digitVal (c : Char) : Nat := c.toNat - 48

/-- Digits of a Python int literal after the first one: further digits with
single underscores permitted between digits, as Python int accepts. -/
def digitsTail (acc : Nat) : List Char → Option Nat
  | [] => some acc
  | '_' :: c :: rest => if c.isDigit then digitsTail (acc * 10 + digitVal c) rest else none
  | c :: rest => if c.isDigit then digitsTail (acc * 10 + digitVal c) rest else none

/-- Leading nonempty digit run of a Python int literal. -/
def pyIntDigits : List Char → Option Nat
  | c :: rest => if c.isDigit then digitsTail (digitVal c) rest else none
  | [] => none

/-- Model of the Python builtin int applied to an ASCII string: optional
surrounding whitespace, an optional sign, then a nonempty digit run with
single underscores permitted between digits. none models the ValueError that
int raises on every other input. -/
def pyInt (s : String) : Option Int :=
  let core := ((s.data.dropWhile Char.isWhitespace).reverse.dropWhile Char.isWhitespace).reverse
  match core with
  | '+' :: rest => (pyIntDigits rest).map fun n => (n : Int)
  | '-' :: rest => (pyIntDigits rest).map fun n => -(n : Int)
  | rest => (pyIntDigits rest).map fun n => (n : Int)

/-- lf1.py lines 70-74: parse_int returns int(n), or float nan when int
raises ValueError; none models the nan sentinel. -/
def parse_int (n : String) : Option Int := pyInt n

/-- Python str.split with a single-character separator, on the character
list: splitting on every occurrence, so the piece count is one more than the
separator count, and the empty string splits to one empty piece. -/
def splitChars (sep : Char) : List Char → List (List Char)
  | [] => [[]]
  | c :: rest =>
    match splitChars sep rest with
    | h :: t => if c = sep then [] :: h :: t else (c :: h) :: t
    | [] => [[]]

/-- Python str.split for a single-character separator. -/
def pySplit (s : String) (sep : Char) : List String :=
  (splitChars sep s.data).map fun l => ⟨l⟩

/-- ASCII model of Python str.lower. -/
def pyLower (s : String) : String := ⟨s.data.map Char.toLower⟩

/-- Python brace interpolation of an optional-string slot value: a Python
None value prints as the text None. -/
def pyStr : Option String → String
  | none => "None"
  | some s => s

/-- A datetime.date value. -/
structure PyDate where
  year : Nat
  month : Nat
  day : Nat
deriving DecidableEq

/-- Python date ordering: lexicographic on year, month, day. -/
def PyDate.le (a b : PyDate) : Bool :=
  Nat.blt a.year b.year ||
    (Nat.beq a.year b.year &&
      (Nat.blt a.month b.month || (Nat.beq a.month b.month && Nat.ble a.day b.day)))

/-- Gregorian leap-year rule, as the datetime library uses. -/
def isLeap (y : Nat) : Bool := y % 4 == 0 && (y % 100 != 0 || y % 400 == 0)

/-- Length of a month in the proleptic Gregorian calendar. -/
def daysInMonth (y m : Nat) : Nat :=
  if m == 2 then (if isLeap y then 29 else 28)
  else if m == 4 || m == 6 || m == 9 || m == 11 then 30
  else 31

/-- Digit string to number. -/
def natOfDigits (l : List Char) : Nat := l.foldl (fun acc c => acc * 10 + digitVal c) 0

/-- Model of datetime.datetime.strptime with format %Y-%m-%d followed by
.date(): a four-digit year, a dash, a one- or two-digit month in 1..12, a
dash, a one- or two-digit day in 1..31, the whole string consumed; the
datetime constructor then also requires year at least 1 and the day to fit
the month. none models the ValueError this call raises otherwise. -/
def strptime_Ymd (s : String) : Option PyDate :=
  match pySplit s '-' with
  | [ys, ms, ds] =>
    if ys.data.all Char.isDigit ∧ ms.data.all Char.isDigit ∧ ds.data.all Char.isDigit
        ∧ ys.length = 4 ∧ (ms.length = 1 ∨ ms.length = 2) ∧ (ds.length = 1 ∨ ds.length = 2) then
      let y := natOfDigits ys.data
      let m := natOfDigits ms.data
      let d := natOfDigits ds.data
      if 1 ≤ y ∧ 1 ≤ m ∧ m ≤ 12 ∧ 1 ≤ d ∧ d ≤ daysInMonth y m then some ⟨y, m, d⟩ else none
    else none
  | _ => none

/-- Model of the extra date shapes the permissive dateutil parser accepts in
this development beyond strict ISO: US month/day/year slash dates with a
four-digit year. -/
def slashDateMDY (s : String) : Bool :=
  match pySplit s '/' with
  | [ms, ds, ys] =>
    decide (ms.data.all Char.isDigit ∧ ds.data.all Char.isDigit ∧ ys.data.all Char.isDigit
      ∧ (ms.length = 1 ∨ ms.length = 2) ∧ (ds.length = 1 ∨ ds.length = 2) ∧ ys.length = 4
      ∧ 1 ≤ natOfDigits ms.data ∧ natOfDigits ms.data ≤ 12
      ∧ 1 ≤ natOfDigits ds.data
      ∧ natOfDigits ds.data ≤ daysInMonth (natOfDigits ys.data) (natOfDigits ms.data)
      ∧ 1 ≤ natOfDigits ys.data)
  | _ => false

/-- Model of dateutil.parser.parse acceptance: the real library is a
permissive multi-format parser; this model covers the shapes this development
exercises, namely ISO year-month-day dates (every string the strict strptime
model accepts) plus US month/day/year slash dates. Every string this model
accepts is accepted by the real parser, and the concrete strings evaluated in
this file agree with the real parser on both sides. -/
def dateutil_accepts (s : String) : Bool :=
  (strptime_Ymd s).isSome || slashDateMDY s

/-- lf1.py lines 91-96: isvalid_date runs dateutil.parser.parse inside a
try/except ValueError and reports whether it parsed. -/
def isvalid_date (date : String) : Bool := dateutil_accepts date

/-- lf1.py line 100: the flower allow-list. -/
def flower_types : List String := ["lilies", "roses", "tulips"]

/-- lf1.py lines 101-105: the FlowerType check of validate_order_flowers.
some r models the early return with verdict r, none models falling through
to the next check. -/
def flowerTypeCheck (flower_type : Option String) : Option ValidationResult :=
  match flower_type with
  | none => none
  | some ft =>
    if flower_types.contains (pyLower ft) then none
    else some (build_validation_result false (some "FlowerType")
      (some ("We do not have " ++ ft ++
        ", would you like a different type of flower?  Our most popular flowers are roses")))

/-- lf1.py lines 107-111: the PickupDate check of validate_order_flowers.
The strict strptime call on line 110 sits outside any try block, so a date
the permissive parser accepts but strptime rejects raises an uncaught
ValueError, modelled by the .error result. -/
def pickupDateCheck (today : PyDate) (date : Option String) :
    Except PyErr (Option ValidationResult) :=
  match date with
  | none => .ok none
  | some d =>
    if !isvalid_date d then
      .ok (some (build_validation_result false (some "PickupDate")
        (some "I did not understand that, what date would you like to pick the flowers up?")))
    else
      match strptime_Ymd d with
      | none => .error .valueError
      | some pd =>
        if PyDate.le pd today then
          .ok (some (build_validation_result false (some "PickupDate")
            (some "You can pick up the flowers from tomorrow onwards.  What day would you like to pick them up?")))
        else .ok none

/-- lf1.py lines 113-127: the PickupTime check of validate_order_flowers.
The two-variable unpack of the split on line 118 raises a ValueError when the
string does not contain exactly one colon, modelled by the .error result;
a nan from parse_int returns the no-message verdict before any comparison. -/
def pickupTimeCheck (pickup_time : Option String) : Except PyErr (Option ValidationResult) :=
  match pickup_time with
  | none => .ok none
  | some t =>
    if t.length ≠ 5 then .ok (some (build_validation_result false (some "PickupTime") none))
    else
      match pySplit t ':' with
      | [hs, ms] =>
        match parse_int hs, parse_int ms with
        | some hour, some _minute =>
          if hour < 10 ∨ hour > 16 then
            .ok (some (build_validation_result false (some "PickupTime")
              (some "Our business hours are from ten a m. to five p m. Can you specify a time during this range?")))
          else .ok none
        | _, _ => .ok (some (build_validation_result false (some "PickupTime") none))
      | _ => .error .valueError

/-- lf1.py lines 99-129: validate_order_flowers runs its checks in source
order with early return; the final line builds the valid verdict. -/
def validate_order_flowers (today : PyDate) (flower_type date pickup_time : Option String) :
    Except PyErr ValidationResult :=
  match flowerTypeCheck flower_type with
  | some r => .ok r
  | none =>
    match pickupDateCheck today date with
    | .error e => .error e
    | .ok (some r) => .ok r
    | .ok none =>
      match pickupTimeCheck pickup_time with
      | .error e => .error e
      | .ok (some r) => .ok r
      | .ok none => .ok (build_validation_result true none none)

/-- lf1.py line 179: the cuisine allow-list. -/
def cuisine_types : List String := ["mexican", "thai", "chinese", "italian", "indian"]

/-- lf1.py line 186: the location allow-list. -/
def loc_types : List String := ["manhattan"]

/-- lf1.py lines 180-184: the Cuisine check of validate_make_suggestions. -/
def cuisineCheck (cuisine_type : Option String) : Option ValidationResult :=
  match cuisine_type with
  | none => none
  | some c =>
    if cuisine_types.contains (pyLower c) then none
    else some (build_validation_result false (some "Cuisine")
      (some ("We do not have suggestions for " ++ c ++
        ", would you like a Cuisine?  Our choices are Mexican, Indian, Thai, Chinese and Italian")))

/-- lf1.py lines 186-190: the Location check of validate_make_suggestions. -/
def locationCheck (location : Option String) : Option ValidationResult :=
  match location with
  | none => none
  | some l =>
    if loc_types.contains (pyLower l) then none
    else some (build_validation_result false (some "Location")
      (some ("We do not have suggestions for " ++ l ++
        ". We currently only have suggestions for Manhattan.")))

/-- lf1.py lines 192-203: the DiningTime check of validate_make_suggestions,
with the same structure as the PickupTime check and the 17..20 window. -/
def diningTimeCheck (dining_time : Option String) : Except PyErr (Option ValidationResult) :=
  match dining_time with
  | none => .ok none
  | some t =>
    if t.length ≠ 5 then .ok (some (build_validation_result false (some "DiningTime") none))
    else
      match pySplit t ':' with
      | [hs, ms] =>
        match parse_int hs, parse_int ms with
        | some hour, some _minute =>
          if hour < 17 ∨ hour > 20 then
            .ok (some (build_validation_result false (some "DiningTime")
              (some "Most dining hours are from five p m. to eight p m. Can you specify a time during this range?")))
          else .ok none
        | _, _ => .ok (some (build_validation_result false (some "DiningTime") none))
      | _ => .error .valueError

/-- lf1.py lines 178-205: validate_make_suggestions runs its checks in source
order with early return; the final line builds the valid verdict. -/
def validate_make_suggestions (cuisine_type location dining_time : Option String) :
    Except PyErr ValidationResult :=
  match cuisineCheck cuisine_type with
  | some r => .ok r
  | none =>
    match locationCheck location with
    | some r => .ok r
    | none =>
      match diningTimeCheck dining_time with
      | .error e => .error e
      | .ok (some r) => .ok r
      | .ok none => .ok (build_validation_result true none none)

/-- The intent request delivered by the Lex host, with the fields lf1.py
reads: invocation source, current intent name, the slot mapping, the session
attributes (None or a dict), plus the userId and bot name used in logging. -/
structure IntentRequest where
  invocationSource : String
  intentName : String
  slots : Slots
  sessionAttributes : Option SessAttrs
  userId : String
  botName : String

/-- lf1.py lines 27-28: get_slots. -/
def get_slots (intent_request : IntentRequest) : Slots := intent_request.slots

/-- lf1.py lines 135-174: order_flowers. On a dialog turn an invalid verdict
first writes None over the violated slot and then reads the message entry of
the verdict dict; build_validation_result omits that entry when the content
was None, so that read raises a KeyError, modelled by .error. The case of an
invalid verdict naming no slot leaves the string-keyed slot mapping as is
(every invalid verdict built by the source names a slot). On the valid path
the price attribute is added when the flower type is present, and on a
fulfillment turn the confirmation message interpolates the slot values. -/
def order_flowers (today : PyDate) (intent_request : IntentRequest) : Except PyErr Response :=
  let flower_type := get_slots intent_request "FlowerType"
  let date := get_slots intent_request "PickupDate"
  let pickup_time := get_slots intent_request "PickupTime"
  if intent_request.invocationSource = "DialogCodeHook" then
    match validate_order_flowers today flower_type date pickup_time with
    | .error e => .error e
    | .ok validation_result =>
      if !validation_result.isValid then
        match validation_result.message with
        | none => .error (.keyError "message")
        | some m =>
          .ok (elicit_slot intent_request.sessionAttributes intent_request.intentName
            (fun k => if validation_result.violatedSlot = some k then none
                      else get_slots intent_request k)
            validation_result.violatedSlot (some m))
      else
        let output_session_attributes := intent_request.sessionAttributes.getD emptySess
        let output_session_attributes :=
          match flower_type with
          | some ft => fun k =>
              if k = "Price" then some (AttrVal.int (ft.length * 5))
              else output_session_attributes k
          | none => output_session_attributes
        .ok (delegate (some output_session_attributes) (get_slots intent_request))
  else
    .ok (close intent_request.sessionAttributes "Fulfilled"
      { contentType := "PlainText",
        content := "Thanks, your order for " ++ pyStr flower_type ++
          " has been placed and will be ready for pickup by " ++ pyStr pickup_time ++
          " on " ++ pyStr date })

/-- lf1.py lines 211-249: make_suggestions, with the same dialog-turn shape
as order_flowers (including the KeyError on a no-message verdict), no derived
session attribute, and its own fulfillment confirmation message. -/
def make_suggestions (intent_request : IntentRequest) : Except PyErr Response :=
  let cuisine_type := get_slots intent_request "Cuisine"
  let location := get_slots intent_request "Location"
  let dining_time := get_slots intent_request "DiningTime"
  let numPeople := get_slots intent_request "NumPeople"
  let phoneNumber := get_slots intent_request "PhoneNumber"
  if intent_request.invocationSource = "DialogCodeHook" then
    match validate_make_suggestions cuisine_type location dining_time with
    | .error e => .error e
    | .ok validation_result =>
      if !validation_result.isValid then
        match validation_result.message with
        | none => .error (.keyError "message")
        | some m =>
          .ok (elicit_slot intent_request.sessionAttributes intent_request.intentName
            (fun k => if validation_result.violatedSlot = some k then none
                      else get_slots intent_request k)
            validation_result.violatedSlot (some m))
      else
        .ok (delegate (some (intent_request.sessionAttributes.getD emptySess))
          (get_slots intent_request))
  else
    .ok (close intent_request.sessionAttributes "Fulfilled"
      { contentType := "PlainText",
        content := "Thanks an sms of suggestions for " ++ pyStr cuisine_type ++
          " food in " ++ pyStr location ++ " at " ++ pyStr dining_time ++
          " for " ++ pyStr numPeople ++ " people would be sent to " ++
          pyStr phoneNumber ++ "." })

/-- lf1.py lines 325-350: dispatch routes on the current intent name and
raises a generic Exception for an unsupported name. -/
def dispatch (today : PyDate) (intent_request : IntentRequest) : Except PyErr Response :=
  if intent_request.intentName = "OrderFlowers" then order_flowers today intent_request
  else if intent_request.intentName = "MakeGreeting" then
    .ok (close intent_request.sessionAttributes "Fulfilled"
      { contentType := "PlainText", content := "Hey there, how can I help you?" })
  else if intent_request.intentName = "MakeThankYou" then
    .ok (close intent_request.sessionAttributes "Fulfilled"
      { contentType := "PlainText", content := "Thanks for coming!" })
  else if intent_request.intentName = "MakeDiningSuggestions" then
    make_suggestions intent_request
  else
    .error (.exception ("Intent with name " ++ intent_request.intentName ++ " not supported"))

/-- lf1.py lines 356-387: lambda_handler dispatches the event, and for a
Close response whose message content is neither of the two fixed greeting
strings it evaluates tArray, a name defined nowhere in the module, so the
request dies with a NameError, modelled by .error; every other response is
returned unchanged. -/
def lambda_handler (today : PyDate) (event : IntentRequest) : Except PyErr Response :=
  match dispatch today event with
  | .error e => .error e
  | .ok temp =>
    match temp.dialogAction with
    | .close _ m =>
      if m.content = "Hey there, how can I help you?" ∨ m.content = "Thanks for coming!" then
        .ok temp
      else .error (.nameError "tArray")
    | _ => .ok temp

/-! Concrete requests used to evaluate the handlers. -/

/-- A dialog-turn OrderFlowers request whose only present slot is the
malformed pickup time 930. -/
def c1Request : IntentRequest :=
  { invocationSource := "DialogCodeHook", intentName := "OrderFlowers",
    slots := fun k => if k = "PickupTime" then some "930" else none,
    sessionAttributes := some emptySess, userId := "user-1", botName := "DinnerBot" }

/-- C1: the claim states that a dialog-turn request with a present but
malformed time slot never fails and yields an ElicitSlot naming the time slot
with no custom message. The validation verdict indeed names PickupTime with
the message entry absent, but the handler then reads that absent entry and
raises a KeyError, so the request dies without any elicit response — the code
contradicts its own use-the-default-prompt comment. -/
theorem c1_malformed_time_raises_keyerror :
    validate_order_flowers ⟨2025, 10, 12⟩ none none (some "930")
      = .ok (build_validation_result false (some "PickupTime") none)
    ∧ order_flowers ⟨2025, 10, 12⟩ c1Request = .error (.keyError "message") :=
  ⟨by decide, by rfl⟩

/-- C2 counterexample: a US slash date is accepted by the permissive parser
behind isvalid_date but rejected by the strict strptime call on line 110,
which sits outside any try block, so validation raises an uncaught ValueError
instead of returning a verdict — refuting the claim that validation of a
present date slot never raises. -/
theorem c2_counterexample :
    validate_order_flowers ⟨2025, 10, 12⟩ none (some "01/01/2999") none
      = .error .valueError := by decide

/-- C2 amended: for a present date slot, a string the permissive parser
rejects yields the invalid verdict for PickupDate with the corrective
message, and a string in strict year-month-day form not strictly later than
the current date yields the invalid verdict with the pick-up-from-tomorrow
message; but a string the permissive parser accepts that is not in strict
form makes validation raise an uncaught ValueError. -/
theorem c2_date_validation (today : PyDate) (d : String) :
    (isvalid_date d = false →
      validate_order_flowers today none (some d) none
        = .ok (build_validation_result false (some "PickupDate")
            (some "I did not understand that, what date would you like to pick the flowers up?")))
  ∧ (∀ pd, strptime_Ymd d = some pd → PyDate.le pd today = true →
      validate_order_flowers today none (some d) none
        = .ok (build_validation_result false (some "PickupDate")
            (some "You can pick up the flowers from tomorrow onwards.  What day would you like to pick them up?")))
  ∧ (isvalid_date d = true → strptime_Ymd d = none →
      validate_order_flowers today none (some d) none = .error .valueError) := by
  refine ⟨?_, ?_, ?_⟩
  · intro h
    simp [validate_order_flowers, flowerTypeCheck, pickupDateCheck, h]
  · intro pd hpd hle
    have hv : isvalid_date d = true := by
      simp [isvalid_date, dateutil_accepts, hpd]
    simp [validate_order_flowers, flowerTypeCheck, pickupDateCheck, hv, hpd, hle]
  · intro hv hpd
    simp [validate_order_flowers, flowerTypeCheck, pickupDateCheck, hv, hpd]

/-- C2 witness: the corrective-message branch of the amended claim at an
unparseable concrete date string. -/
theorem c2_date_validation_witness :
    validate_order_flowers ⟨2025, 10, 12⟩ none (some "hello") none
      = .ok (build_validation_result false (some "PickupDate")
          (some "I did not understand that, what date would you like to pick the flowers up?")) :=
  (c2_date_validation ⟨2025, 10, 12⟩ "hello").1 (by decide)

/-- C3: on a fulfillment turn (invocation source differing from the dialog
hook) dispatch performs no validation and returns Close with state Fulfilled
for every registered intent; for OrderFlowers the message interpolates the
flower type, the pickup time and the pickup date in that order, whatever the
slot values are. -/
theorem c3_fulfillment_close (today : PyDate) (req : IntentRequest)
    (hsrc : req.invocationSource ≠ "DialogCodeHook") :
    (req.intentName = "OrderFlowers" →
      dispatch today req = .ok (close req.sessionAttributes "Fulfilled"
        { contentType := "PlainText",
          content := "Thanks, your order for " ++ pyStr (req.slots "FlowerType") ++
            " has been placed and will be ready for pickup by " ++
            pyStr (req.slots "PickupTime") ++ " on " ++ pyStr (req.slots "PickupDate") }))
  ∧ (req.intentName = "MakeDiningSuggestions" →
      dispatch today req = .ok (close req.sessionAttributes "Fulfilled"
        { contentType := "PlainText",
          content := "Thanks an sms of suggestions for " ++ pyStr (req.slots "Cuisine") ++
            " food in " ++ pyStr (req.slots "Location") ++ " at " ++
            pyStr (req.slots "DiningTime") ++ " for " ++ pyStr (req.slots "NumPeople") ++
            " people would be sent to " ++ pyStr (req.slots "PhoneNumber") ++ "." }))
  ∧ (req.intentName = "MakeGreeting" →
      dispatch today req = .ok (close req.sessionAttributes "Fulfilled"
        { contentType := "PlainText", content := "Hey there, how can I help you?" }))
  ∧ (req.intentName = "MakeThankYou" →
      dispatch today req = .ok (close req.sessionAttributes "Fulfilled"
        { contentType := "PlainText", content := "Thanks for coming!" })) := by
  refine ⟨fun h => ?_, fun h => ?_, fun h => ?_, fun h => ?_⟩ <;>
    simp [dispatch, h, order_flowers, make_suggestions, get_slots, hsrc, close]

/-- A fulfillment-turn OrderFlowers request whose every present slot value
would fail validation. -/
def c3Request : IntentRequest :=
  { invocationSource := "FulfillmentCodeHook", intentName := "OrderFlowers",
    slots := fun k =>
      if k = "FlowerType" then some "daisies"
      else if k = "PickupTime" then some "99:99"
      else if k = "PickupDate" then some "2020-01-01" else none,
    sessionAttributes := some emptySess, userId := "user-3", botName := "DinnerBot" }

/-- C3 witness: a fulfillment turn carrying only invalid slot values still
closes as fulfilled with the interpolated confirmation message. -/
theorem c3_fulfillment_close_witness :
    dispatch ⟨2025, 10, 12⟩ c3Request
      = .ok (close c3Request.sessionAttributes "Fulfilled"
          { contentType := "PlainText",
            content := "Thanks, your order for " ++ pyStr (c3Request.slots "FlowerType") ++
              " has been placed and will be ready for pickup by " ++
              pyStr (c3Request.slots "PickupTime") ++ " on " ++
              pyStr (c3Request.slots "PickupDate") }) :=
  (c3_fulfillment_close ⟨2025, 10, 12⟩ c3Request (by decide)).1 rfl

/-- A dialog-turn MakeDiningSuggestions request whose only present slot is
the malformed dining time 930. -/
def c4Request : IntentRequest :=
  { invocationSource := "DialogCodeHook", intentName := "MakeDiningSuggestions",
    slots := fun k => if k = "DiningTime" then some "930" else none,
    sessionAttributes := some emptySess, userId := "user-4", botName := "DinnerBot" }

/-- C4 counterexample: a dialog-turn request whose slots fail validation (the
dining time 930, a failure carrying no message) produces no ElicitSlot
response at all — the handler raises a KeyError reading the absent message
entry of the verdict, refuting the claim as stated for every such request. -/
theorem c4_counterexample :
    validate_make_suggestions none none (some "930")
      = .ok (build_validation_result false (some "DiningTime") none)
    ∧ dispatch ⟨2025, 10, 12⟩ c4Request = .error (.keyError "message") :=
  ⟨by decide, by rfl⟩

/-- C4 amended: on a dialog turn whose validation verdict is invalid and
carries a message, the response is ElicitSlot whose slot-to-elicit is the
violated slot, with exactly that slot cleared in the slot mapping, every
other slot unchanged and the session attributes carried through unchanged;
when the verdict carries no message the handler instead raises a KeyError
and returns nothing. -/
theorem c4_elicit_frame (today : PyDate) (req : IntentRequest) (vr : ValidationResult)
    (hsrc : req.invocationSource = "DialogCodeHook") (hinv : vr.isValid = false) :
    (req.intentName = "OrderFlowers" →
      validate_order_flowers today (req.slots "FlowerType") (req.slots "PickupDate")
          (req.slots "PickupTime") = .ok vr →
      ((∀ m, vr.message = some m →
          dispatch today req = .ok (elicit_slot req.sessionAttributes req.intentName
            (fun k => if vr.violatedSlot = some k then none else req.slots k)
            vr.violatedSlot (some m)))
        ∧ (vr.message = none → dispatch today req = .error (.keyError "message"))))
  ∧ (req.intentName = "MakeDiningSuggestions" →
      validate_make_suggestions (req.slots "Cuisine") (req.slots "Location")
          (req.slots "DiningTime") = .ok vr →
      ((∀ m, vr.message = some m →
          dispatch today req = .ok (elicit_slot req.sessionAttributes req.intentName
            (fun k => if vr.violatedSlot = some k then none else req.slots k)
            vr.violatedSlot (some m)))
        ∧ (vr.message = none → dispatch today req = .error (.keyError "message")))) := by
  constructor
  · intro h hv
    refine ⟨fun m hm => ?_, fun hm => ?_⟩ <;>
      simp [dispatch, h, order_flowers, get_slots, hsrc, hv, hinv, hm, elicit_slot]
  · intro h hv
    refine ⟨fun m hm => ?_, fun hm => ?_⟩ <;>
      simp [dispatch, h, make_suggestions, get_slots, hsrc, hv, hinv, hm, elicit_slot]

/-- A dialog-turn OrderFlowers request with an invalid flower type, whose
validation failure carries a message. -/
def c4OkRequest : IntentRequest :=
  { invocationSource := "DialogCodeHook", intentName := "OrderFlowers",
    slots := fun k => if k = "FlowerType" then some "daisies" else none,
    sessionAttributes := some emptySess, userId := "user-5", botName := "DinnerBot" }

/-- The verdict validation returns for the flower type daisies. -/
def daisiesVerdict : ValidationResult :=
  build_validation_result false (some "FlowerType")
    (some "We do not have daisies, would you like a different type of flower?  Our most popular flowers are roses")

/-- C4 witness: the message-carrying branch of the amended claim at a
concrete request. -/
theorem c4_elicit_frame_witness :
    dispatch ⟨2025, 10, 12⟩ c4OkRequest
      = .ok (elicit_slot c4OkRequest.sessionAttributes c4OkRequest.intentName
          (fun k => if daisiesVerdict.violatedSlot = some k then none else c4OkRequest.slots k)
          daisiesVerdict.violatedSlot
          (some { contentType := "PlainText",
                  content := "We do not have daisies, would you like a different type of flower?  Our most popular flowers are roses" })) :=
  ((c4_elicit_frame ⟨2025, 10, 12⟩ c4OkRequest daisiesVerdict rfl rfl).1 rfl (by decide)).1
    _ rfl

/-- C5: dispatch raises the unsupported-intent exception for any intent name
outside the four registered ones and returns no partial response; the
greeting and thanks intents answer with their fixed Close messages whatever
the invocation source; each slot-bearing intent routes to exactly its own
handler. -/
theorem c5_dispatch_routing (today : PyDate) (req : IntentRequest) :
    (req.intentName ∉ ["OrderFlowers", "MakeGreeting", "MakeThankYou", "MakeDiningSuggestions"] →
      dispatch today req
        = .error (.exception ("Intent with name " ++ req.intentName ++ " not supported")))
  ∧ (req.intentName = "MakeGreeting" →
      dispatch today req = .ok (close req.sessionAttributes "Fulfilled"
        { contentType := "PlainText", content := "Hey there, how can I help you?" }))
  ∧ (req.intentName = "MakeThankYou" →
      dispatch today req = .ok (close req.sessionAttributes "Fulfilled"
        { contentType := "PlainText", content := "Thanks for coming!" }))
  ∧ (req.intentName = "OrderFlowers" → dispatch today req = order_flowers today req)
  ∧ (req.intentName = "MakeDiningSuggestions" → dispatch today req = make_suggestions req) := by
  refine ⟨fun h => ?_, fun h => ?_, fun h => ?_, fun h => ?_, fun h => ?_⟩
  · simp only [List.mem_cons, List.not_mem_nil, or_false, not_or] at h
    obtain ⟨h1, h2, h3, h4⟩ := h
    simp [dispatch, h1, h2, h3, h4]
  · simp [dispatch, h, close]
  · simp [dispatch, h, close]
  · simp [dispatch, h]
  · simp [dispatch, h]

/-- A request carrying an intent name that matches no registered intent. -/
def c5Request : IntentRequest :=
  { invocationSource := "DialogCodeHook", intentName := "OrderPizza",
    slots := fun _ => none, sessionAttributes := some emptySess,
    userId := "user-6", botName := "DinnerBot" }

/-- C5 witness: a concrete unregistered intent name is rejected with the
unsupported-intent exception. -/
theorem c5_dispatch_routing_witness :
    dispatch ⟨2025, 10, 12⟩ c5Request
      = .error (.exception "Intent with name OrderPizza not supported") :=
  (c5_dispatch_routing ⟨2025, 10, 12⟩ c5Request).1 (by decide)

/-- The slot mapping of the concrete C6 scenario. -/
def c6Slots : Slots := fun k =>
  if k = "FlowerType" then some "roses"
  else if k = "PickupDate" then some "2999-01-01"
  else if k = "PickupTime" then some "14:00" else none

/-- The dialog-turn request of the concrete C6 scenario. -/
def c6Request : IntentRequest :=
  { invocationSource := "DialogCodeHook", intentName := "OrderFlowers",
    slots := c6Slots, sessionAttributes := some emptySess,
    userId := "user-7", botName := "DinnerBot" }

/-- C6: the concrete dialog-turn scenario delegates with the slot mapping
unchanged and a session Price attribute of 25, five times the length of
roses; in general every valid dialog turn with a present flower type
delegates with Price set to five times the flower-type length over the
carried-through session attributes. -/
theorem c6_delegate_price (today : PyDate)
    (hToday : PyDate.le ⟨2999, 1, 1⟩ today = false) :
    dispatch today c6Request
      = .ok (delegate
          (some (fun k => if k = "Price" then some (AttrVal.int 25) else emptySess k))
          c6Slots)
  ∧ ∀ (req : IntentRequest) (ft : String),
      req.invocationSource = "DialogCodeHook" → req.intentName = "OrderFlowers" →
      req.slots "FlowerType" = some ft →
      validate_order_flowers today (req.slots "FlowerType") (req.slots "PickupDate")
          (req.slots "PickupTime") = .ok (build_validation_result true none none) →
      dispatch today req
        = .ok (delegate
            (some (fun k => if k = "Price" then some (AttrVal.int (ft.length * 5))
                   else (req.sessionAttributes.getD emptySess) k))
            req.slots) := by
  constructor
  · have hd : pickupDateCheck today (some "2999-01-01") = .ok none := by
      have h1 : strptime_Ymd "2999-01-01" = some ⟨2999, 1, 1⟩ := by decide
      have h2 : isvalid_date "2999-01-01" = true := by decide
      simp [pickupDateCheck, h1, h2, hToday]
    have hv : validate_order_flowers today (some "roses") (some "2999-01-01") (some "14:00")
        = .ok (build_validation_result true none none) := by
      have hf : flowerTypeCheck (some "roses") = none := by decide
      have ht : pickupTimeCheck (some "14:00") = .ok none := by decide
      simp [validate_order_flowers, hf, hd, ht]
    have h25 : ((("roses".length : Nat) : Int) * 5) = 25 := by decide
    simp [dispatch, c6Request, order_flowers, get_slots, c6Slots, hv,
      build_validation_result, delegate, h25]
  · intro req ft hsrc hname hft hv
    rw [hft] at hv
    simp [dispatch, hname, order_flowers, get_slots, hsrc, hv, hft,
      build_validation_result, delegate]

/-- C6 witness: the scenario at a concrete current date before 2999. -/
theorem c6_delegate_price_witness :
    dispatch ⟨2025, 10, 12⟩ c6Request
      = .ok (delegate
          (some (fun k => if k = "Price" then some (AttrVal.int 25) else emptySess k))
          c6Slots) :=
  (c6_delegate_price ⟨2025, 10, 12⟩ (by decide)).1

/-- C7: each validate function runs its checks in a fixed source order and
returns the verdict of the first failing check: whenever an earlier check
fails, the result equals that verdict for all values of every later slot, so
later checks are never consulted; when the earlier checks pass, a failing
later check supplies the verdict, which names its own slot. -/
theorem c7_first_failure_wins (today : PyDate) :
    (∀ (f d t : Option String) (r : ValidationResult), flowerTypeCheck f = some r →
      validate_order_flowers today f d t = .ok r)
  ∧ (∀ (f d t : Option String) (r : ValidationResult), flowerTypeCheck f = none →
      pickupDateCheck today d = .ok (some r) →
      validate_order_flowers today f d t = .ok r)
  ∧ (∀ (f d t : Option String) (r : ValidationResult), flowerTypeCheck f = none →
      pickupDateCheck today d = .ok none → pickupTimeCheck t = .ok (some r) →
      validate_order_flowers today f d t = .ok r)
  ∧ (∀ (c l dt : Option String) (r : ValidationResult), cuisineCheck c = some r →
      validate_make_suggestions c l dt = .ok r)
  ∧ (∀ (c l dt : Option String) (r : ValidationResult), cuisineCheck c = none →
      locationCheck l = some r → validate_make_suggestions c l dt = .ok r)
  ∧ (∀ (c l dt : Option String) (r : ValidationResult), cuisineCheck c = none →
      locationCheck l = none → diningTimeCheck dt = .ok (some r) →
      validate_make_suggestions c l dt = .ok r) := by
  refine ⟨?_, ?_, ?_, ?_, ?_, ?_⟩ <;> intros <;>
    simp [validate_order_flowers, validate_make_suggestions, *]

/-- C7 witness: with an invalid flower type, the later date and time values
are never consulted — here each of them would raise if its own check ran. -/
theorem c7_first_failure_wins_witness :
    validate_order_flowers ⟨2025, 10, 12⟩ (some "daisies") (some "01/01/2999") (some "12345")
      = .ok (build_validation_result false (some "FlowerType")
          (some "We do not have daisies, would you like a different type of flower?  Our most popular flowers are roses")) :=
  (c7_first_failure_wins ⟨2025, 10, 12⟩).1 (some "daisies") (some "01/01/2999") (some "12345")
    _ (by decide)

/-- C8: when every present slot value passes its own check, validation
returns the valid verdict, whichever slots are absent; absent slots never
fail — in particular validation of the all-absent slot set is valid for both
intents. -/
theorem c8_valid_when_checks_pass (today : PyDate) (f d t c l dt : Option String)
    (hf : flowerTypeCheck f = none) (hd : pickupDateCheck today d = .ok none)
    (ht : pickupTimeCheck t = .ok none) (hc : cuisineCheck c = none)
    (hl : locationCheck l = none) (hdt : diningTimeCheck dt = .ok none) :
    validate_order_flowers today f d t = .ok (build_validation_result true none none)
  ∧ validate_make_suggestions c l dt = .ok (build_validation_result true none none)
  ∧ validate_order_flowers today none none none = .ok (build_validation_result true none none)
  ∧ validate_make_suggestions none none none = .ok (build_validation_result true none none) := by
  refine ⟨?_, ?_, rfl, rfl⟩
  · simp [validate_order_flowers, hf, hd, ht]
  · simp [validate_make_suggestions, hc, hl, hdt]

/-- C8 witness: mixed-case present values satisfying every rule validate for
both intents. -/
theorem c8_valid_when_checks_pass_witness :
    validate_order_flowers ⟨2025, 10, 12⟩ (some "Roses") (some "2999-01-01") (some "14:00")
      = .ok (build_validation_result true none none)
  ∧ validate_make_suggestions (some "Thai") (some "Manhattan") (some "18:30")
      = .ok (build_validation_result true none none) :=
  ⟨(c8_valid_when_checks_pass ⟨2025, 10, 12⟩ (some "Roses") (some "2999-01-01") (some "14:00")
      (some "Thai") (some "Manhattan") (some "18:30") (by decide) (by decide) (by decide)
      (by decide) (by decide) (by decide)).1,
   (c8_valid_when_checks_pass ⟨2025, 10, 12⟩ (some "Roses") (some "2999-01-01") (some "14:00")
      (some "Thai") (some "Manhattan") (some "18:30") (by decide) (by decide) (by decide)
      (by decide) (by decide) (by decide)).2.1⟩

/-- C9: whenever dispatch produces a Close response whose message content is
neither fixed greeting string, the entry point evaluates tArray, a name
defined nowhere in the module, and the request fails with a NameError
instead of returning the Close response to the caller. -/
theorem c9_close_hits_undefined_name (today : PyDate) (req : IntentRequest)
    (resp : Response) (fs : String) (m : PyMessage)
    (h1 : dispatch today req = .ok resp) (h2 : resp.dialogAction = .close fs m)
    (h3 : m.content ≠ "Hey there, how can I help you?")
    (h4 : m.content ≠ "Thanks for coming!") :
    lambda_handler today req = .error (.nameError "tArray") := by
  simp [lambda_handler, h1, h2, h3, h4]

/-- A fulfillment-turn MakeDiningSuggestions request with every slot
collected. -/
def c9Request : IntentRequest :=
  { invocationSource := "FulfillmentCodeHook", intentName := "MakeDiningSuggestions",
    slots := fun k =>
      if k = "Cuisine" then some "thai"
      else if k = "Location" then some "manhattan"
      else if k = "DiningTime" then some "18:30"
      else if k = "NumPeople" then some "2"
      else if k = "PhoneNumber" then some "5555555555" else none,
    sessionAttributes := some emptySess, userId := "user-9", botName := "DinnerBot" }

/-- C9 witness: a dining fulfillment turn closes with the sms confirmation,
whose content is neither greeting string, so the entry point dies on the
undefined tArray. -/
theorem c9_close_hits_undefined_name_witness :
    lambda_handler ⟨2025, 10, 12⟩ c9Request = .error (.nameError "tArray") :=
  c9_close_hits_undefined_name ⟨2025, 10, 12⟩ c9Request
    (close c9Request.sessionAttributes "Fulfilled"
      { contentType := "PlainText",
        content := "Thanks an sms of suggestions for thai food in manhattan at 18:30 for 2 people would be sent to 5555555555." })
    "Fulfilled"
    { contentType := "PlainText",
      content := "Thanks an sms of suggestions for thai food in manhattan at 18:30 for 2 people would be sent to 5555555555." }
    rfl rfl (by decide) (by decide)

/-- C10: the minute of a time slot is never range-checked — any
five-character time string whose two colon-separated parts parse as integers
passes whenever the hour alone lies in the business-hour window of the
intent, whatever the minute value. -/
theorem c10_minute_never_checked (today : PyDate) (t1 t2 h1s m1s h2s m2s : String)
    (hv1 mv1 hv2 mv2 : Int)
    (hlen1 : t1.length = 5) (hsplit1 : pySplit t1 ':' = [h1s, m1s])
    (hp1 : parse_int h1s = some hv1) (hq1 : parse_int m1s = some mv1)
    (hw1 : 10 ≤ hv1 ∧ hv1 ≤ 16)
    (hlen2 : t2.length = 5) (hsplit2 : pySplit t2 ':' = [h2s, m2s])
    (hp2 : parse_int h2s = some hv2) (hq2 : parse_int m2s = some mv2)
    (hw2 : 17 ≤ hv2 ∧ hv2 ≤ 20) :
    validate_order_flowers today none none (some t1)
      = .ok (build_validation_result true none none)
  ∧ validate_make_suggestions none none (some t2)
      = .ok (build_validation_result true none none) := by
  have hn1 : ¬(hv1 < 10 ∨ hv1 > 16) := by omega
  have hn2 : ¬(hv2 < 17 ∨ hv2 > 20) := by omega
  constructor
  · simp [validate_order_flowers, flowerTypeCheck, pickupDateCheck, pickupTimeCheck,
      hlen1, hsplit1, hp1, hq1, hn1]
  · simp [validate_make_suggestions, cuisineCheck, locationCheck, diningTimeCheck,
      hlen2, hsplit2, hp2, hq2, hn2]

/-- C10 witness: minute 99 passes both time checks when the hour is inside
the window. -/
theorem c10_minute_never_checked_witness :
    validate_order_flowers ⟨2025, 10, 12⟩ none none (some "14:99")
      = .ok (build_validation_result true none none)
  ∧ validate_make_suggestions none none (some "18:99")
      = .ok (build_validation_result true none none) :=
  c10_minute_never_checked ⟨2025, 10, 12⟩ "14:99" "18:99" "14" "99" "18" "99" 14 99 18 99
    rfl (by decide) (by decide) (by decide) (by decide)
    rfl (by decide) (by decide) (by decide) (by decide)

end Lf1
